import Mathlib

/-!
Verification of the liturgical calendar / lectionary core
(`calendar_service.py`, `lectionary_service.py`) via a shallow embedding.

Conventions of the embedding:
* Python `datetime.date` objects become `Date` triples (year, month, day);
  Python's date comparison on valid dates is lexicographic on those triples
  (`dateLe` / `dateLt`), and `timedelta` arithmetic is day stepping
  (`prevDay` / `nextDay` iterated).
* Python `date.weekday()` (Monday = 0 .. Sunday = 6) is `weekday`, computed
  from the proleptic-Gregorian ordinal exactly as CPython does
  (`date.toordinal`, day 1 = 0001-01-01).
* Machine integers are `Nat`; every `Nat` subtraction below matches the
  Python integer computation because each left-associated partial result is
  nonnegative in the argument ranges that arise (noted at each use).
-/

set_option maxRecDepth 8000

structure Date where
  year : Nat
  month : Nat
  day : Nat
deriving DecidableEq, Repr

/-- Gregorian leap year test (as used by Python's `calendar`/`datetime`). -/
def isLeap (y : Nat) : Bool :=
  y % 4 == 0 && (y % 100 != 0 || y % 400 == 0)

/-- Length of month `m` in year `y`; months are matched structurally so only
February inspects the year. -/
def daysInMonth (y m : Nat) : Nat :=
  match m with
  | 1 => 31
  | 2 => if isLeap y then 29 else 28
  | 3 => 31
  | 4 => 30
  | 5 => 31
  | 6 => 30
  | 7 => 31
  | 8 => 31
  | 9 => 30
  | 10 => 31
  | 11 => 30
  | 12 => 31
  | _ => 0

/-- Days in year `y` that precede the first of month `m`. -/
def daysBeforeMonth (y m : Nat) : Nat :=
  ((List.range (m - 1)).map (fun i => daysInMonth y (i + 1))).foldl (· + ·) 0

/-- CPython's `date.toordinal`: day number in the proleptic Gregorian
calendar, with 0001-01-01 being day 1.  All subtractions stay nonnegative:
`py/4 ≤ 365*py` termwise. -/
def toOrdinal (d : Date) : Nat :=
  let py := d.year - 1
  365 * py + py / 4 - py / 100 + py / 400 + daysBeforeMonth d.year d.month + d.day

/-- CPython's `date.weekday()`: Monday = 0, ..., Sunday = 6.
0001-01-01 (ordinal 1) is a Monday. -/
def weekday (d : Date) : Nat :=
  (toOrdinal d + 6) % 7

/-- Python date comparison `a <= b` (lexicographic on valid dates). -/
def dateLe (a b : Date) : Bool :=
  decide (a.year < b.year ∨ (a.year = b.year ∧
    (a.month < b.month ∨ (a.month = b.month ∧ a.day ≤ b.day))))

/-- Python date comparison `a < b` (lexicographic on valid dates). -/
def dateLt (a b : Date) : Bool :=
  decide (a.year < b.year ∨ (a.year = b.year ∧
    (a.month < b.month ∨ (a.month = b.month ∧ a.day < b.day))))

/-- One day earlier (the single step of `date - timedelta(days=1)`). -/
def prevDay : Date → Date
  | ⟨y, m, d⟩ =>
    if 1 < d then ⟨y, m, d - 1⟩
    else if 1 < m then ⟨y, m - 1, daysInMonth y (m - 1)⟩
    else ⟨y - 1, 12, 31⟩

/-- One day later (the single step of `date + timedelta(days=1)`). -/
def nextDay : Date → Date
  | ⟨y, m, d⟩ =>
    if d < daysInMonth y m then ⟨y, m, d + 1⟩
    else if m < 12 then ⟨y, m + 1, 1⟩
    else ⟨y + 1, 1, 1⟩

/-- `d - timedelta(days=n)`. -/
def subDays : Date → Nat → Date
  | d, 0 => d
  | d, n + 1 => subDays (prevDay d) n

/-- `d + timedelta(days=n)`. -/
def addDays : Date → Nat → Date
  | d, 0 => d
  | d, n + 1 => addDays (nextDay d) n

/-!  `calendar_service.py`  -/

/-- `_computus`: Easter Sunday by the Meeus/Jones/Butcher algorithm,
transcribed operation for operation.  Every `Nat` subtraction matches the
Python integer value: `b ≥ d`, `b - d ≥ g`, `32 + 2e + 2i ≥ h + k`, and
`h + l ≥ 7m` hold for all inputs used here. -/
def computus (year : Nat) : Date :=
  let a := year % 19
  let b := year / 100
  let c := year % 100
  let d := b / 4
  let e := b % 4
  let f := (b + 8) / 25
  let g := (b - f + 1) / 3
  let h := (19 * a + b - d - g + 15) % 30
  let i := c / 4
  let k := c % 4
  let l := (32 + 2 * e + 2 * i - h - k) % 7
  let m := (a + 11 * h + 22 * l) / 451
  let month := (h + l - 7 * m + 114) / 31
  let day := ((h + l - 7 * m + 114) % 31) + 1
  ⟨year, month, day⟩

/-- `_first_sunday_of_advent`: walk back from December 25 to the Sunday on
or before it (`(christmas.weekday() + 1) % 7` days), then three more weeks. -/
def firstSundayOfAdvent (year : Nat) : Date :=
  let christmas : Date := ⟨year, 12, 25⟩
  let days_to_sunday := (weekday christmas + 1) % 7
  subDays (subDays christmas days_to_sunday) 21

/-- `calculate_rcl_year`: the `{0:"A",1:"B",2:"C"}[year % 3]` lookup is a
total match because `% 3 < 3`. -/
def calculate_rcl_year (dt : Date) : String :=
  let advent := firstSundayOfAdvent dt.year
  let year := if dateLe advent dt then dt.year else dt.year - 1
  match year % 3 with
  | 0 => "A"
  | 1 => "B"
  | _ => "C"

/-- `calculate_lectionary_year`. -/
def calculate_lectionary_year (dt : Date) : String :=
  let advent := firstSundayOfAdvent dt.year
  let year := if dateLe advent dt then dt.year else dt.year - 1
  if year % 2 = 1 then "Year One" else "Year Two"

/-- `SEASON_MAP` (Church of England vocabulary -> Episcopal vocabulary). -/
def SEASON_MAP : List (String × String) :=
  [("Advent", "Advent"),
   ("Christmas", "Christmas"),
   ("Epiphany", "The Season after the Epiphany"),
   ("before Lent", "The Season after the Epiphany"),
   ("Lent", "Lent"),
   ("Easter", "Easter"),
   ("Pentecost", "The Season after Pentecost"),
   ("before Advent", "The Season after Pentecost"),
   ("Ordinary Time", "The Season after Pentecost")]

/-- `COLOUR_MAP`. -/
def COLOUR_MAP : List (String × String) :=
  [("Advent", "Purple"),
   ("Christmas", "White"),
   ("The Season after the Epiphany", "Green"),
   ("Lent", "Purple"),
   ("Easter", "White"),
   ("The Season after Pentecost", "Green")]

/-- Python's `dict.get(k, default)` on a string-keyed table. -/
def getStrD (m : List (String × String)) (k d : String) : String :=
  ((m.find? (fun p => p.1 == k)).map (fun p => p.2)).getD d

/-- Python's `dict.get(k, default)` on a `Nat`-keyed table. -/
def getNatD (m : List (Nat × String)) (k : Nat) (d : String) : String :=
  ((m.find? (fun p => p.1 == k)).map (fun p => p.2)).getD d

/-- `EPIPHANY_NAMES`. -/
def EPIPHANY_NAMES : List (Nat × String) :=
  [(1, "The First Sunday after the Epiphany: The Baptism of our Lord"),
   (2, "The Second Sunday after the Epiphany"),
   (3, "The Third Sunday after the Epiphany"),
   (4, "The Fourth Sunday after the Epiphany"),
   (5, "The Fifth Sunday after the Epiphany"),
   (6, "The Sixth Sunday after the Epiphany"),
   (7, "The Seventh Sunday after the Epiphany"),
   (8, "The Eighth Sunday after the Epiphany"),
   (9, "The Last Sunday after the Epiphany")]

/-- `LENT_NAMES`. -/
def LENT_NAMES : List (Nat × String) :=
  [(1, "The First Sunday in Lent"),
   (2, "The Second Sunday in Lent"),
   (3, "The Third Sunday in Lent"),
   (4, "The Fourth Sunday in Lent"),
   (5, "The Fifth Sunday in Lent"),
   (6, "Palm Sunday")]

/-- `EASTER_NAMES`. -/
def EASTER_NAMES : List (Nat × String) :=
  [(1, "Easter Day"),
   (2, "The Second Sunday of Easter"),
   (3, "The Third Sunday of Easter"),
   (4, "The Fourth Sunday of Easter"),
   (5, "The Fifth Sunday of Easter"),
   (6, "The Sixth Sunday of Easter"),
   (7, "The Sunday after the Ascension"),
   (8, "The Day of Pentecost")]

/-- `_map_episcopal_name`.  `if weekno:` is integer truthiness (`weekno ≠ 0`);
`ordinals[min(weekno - 1, 3)]` can never go out of range, so `getD` with a
dummy default is exact; `cal_name or mapped_season` is string truthiness. -/
def map_episcopal_name (season : String) (weekno : Nat) (cal_name : String) : String :=
  let mapped_season := getStrD SEASON_MAP season season
  if mapped_season = "Advent" then
    (if weekno ≠ 0 then
      "The " ++ (["First", "Second", "Third", "Fourth"].getD (min (weekno - 1) 3) "")
        ++ " Sunday of Advent"
     else "Advent")
  else if mapped_season = "The Season after the Epiphany" then
    (if cal_name = "Epiphany" ∨ cal_name = "The Epiphany" then "The Epiphany"
     else getNatD EPIPHANY_NAMES weekno
       ("The Season after the Epiphany (Week " ++ toString weekno ++ ")"))
  else if mapped_season = "Lent" then
    getNatD LENT_NAMES weekno ("Lent Week " ++ toString weekno)
  else if mapped_season = "Easter" then
    getNatD EASTER_NAMES weekno ("Easter Week " ++ toString weekno)
  else if mapped_season = "The Season after Pentecost" then
    (if weekno ≠ 0 ∧ 0 < weekno then
      "Proper " ++ toString (weekno + 1) ++ " (The Season after Pentecost)"
     else "The Season after Pentecost")
  else (if cal_name ≠ "" then cal_name else mapped_season)

/-- Outcome of the call into the external `liturgical_calendar` package:
not installed (`HAS_LITURGICAL_PKG` false), raised an exception, or returned
a `{season, weekno, name}` structure. -/
inductive PkgOutcome where
  | unavailable
  | raised
  | ok (season : String) (weekno : Nat) (name : String)
deriving DecidableEq, Repr

/-- The result dictionary of `get_calendar_info`.  `easter_date` keeps the
`Date` itself (the Python code stores its ISO rendering); `raw_calendar`
mirrors the diagnostic key that is present only on the package path. -/
structure CalInfo where
  date : Date
  is_sunday : Bool
  rcl_year : String
  lectionary_year : String
  easter_date : Date
  day_name : String
  season : String
  colour : String
  raw_calendar : Option (String × Nat × String)
deriving DecidableEq, Repr

/-- The built-in season calculator at the bottom of `get_calendar_info`
(the branch cascade after "Fallback: built-in season calculator").
`ash_wed`, `pentecost` and the date comparisons are Python date arithmetic. -/
def fallback_season (dt : Date) : String :=
  let easter_dt := computus dt.year
  let ash_wed := subDays easter_dt 46
  let pentecost := addDays easter_dt 49
  let advent := firstSundayOfAdvent dt.year
  let epiphany : Date := ⟨dt.year, 1, 6⟩
  if dateLe advent dt then "Advent"
  else if dateLe ⟨dt.year, 12, 25⟩ dt then "Christmas"
  else if dateLt dt epiphany then "Christmas"
  else if dateLt dt ash_wed then "The Season after the Epiphany"
  else if dateLt dt easter_dt then "Lent"
  else if dateLt dt pentecost then "Easter"
  else "The Season after Pentecost"

/-- `get_calendar_info`, with the external package call abstracted as a
`PkgOutcome`.  The package path fills `day_name`/`season`/`colour` from the
package's season, week number and name; the fallback path uses the built-in
season calculator and sets `day_name` to the season label. -/
def get_calendar_info (pkg : PkgOutcome) (dt : Date) : CalInfo :=
  match pkg with
  | .ok s w n =>
      let mapped_season := getStrD SEASON_MAP s s
      { date := dt
        is_sunday := weekday dt == 6
        rcl_year := calculate_rcl_year dt
        lectionary_year := calculate_lectionary_year dt
        easter_date := computus dt.year
        day_name := map_episcopal_name s w n
        season := mapped_season
        colour := getStrD COLOUR_MAP mapped_season "Green"
        raw_calendar := some (s, w, n) }
  | _ =>
      let season := fallback_season dt
      { date := dt
        is_sunday := weekday dt == 6
        rcl_year := calculate_rcl_year dt
        lectionary_year := calculate_lectionary_year dt
        easter_date := computus dt.year
        day_name := season
        season := season
        colour := getStrD COLOUR_MAP season "Green"
        raw_calendar := none }

/-!  `lectionary_service.py`  -/

/-- JSON-like values: the payloads stored in the cache, parsed from the
local dataset, and returned by the remote service (floating point numbers do
not occur in any payload this service constructs and are not modelled). -/
inductive JVal where
  | jnull
  | jbool (b : Bool)
  | jnum (n : Int)
  | jstr (s : String)
  | jarr (xs : List JVal)
  | jobj (kvs : List (String × JVal))

/-- Python truthiness of a JSON value (`if cached:` / `if not result:`). -/
def jTruthy : JVal → Bool
  | .jnull => false
  | .jbool b => b
  | .jnum n => n != 0
  | .jstr s => s != ""
  | .jarr xs => !xs.isEmpty
  | .jobj kvs => !kvs.isEmpty

/-- Dictionary read `d[k]` (as an `Option`, mirroring `dict.get(k)`). -/
def objLookup (j : JVal) (k : String) : Option JVal :=
  match j with
  | .jobj kvs => (kvs.find? (fun p => p.1 == k)).map (fun p => p.2)
  | _ => none

/-- Python dict assignment `d[k] = v`: replace in place if the key exists
(keeping its position), else append. -/
def setKV : List (String × JVal) → String → JVal → List (String × JVal)
  | [], k, v => [(k, v)]
  | (k2, v2) :: rest, k, v =>
      if k2 == k then (k, v) :: rest else (k2, v2) :: setKV rest k v

/-- `j[k] = v` on a JSON object; non-objects are returned unchanged here and
the caller models the `TypeError` Python would raise. -/
def objSet (j : JVal) (k : String) (v : JVal) : JVal :=
  match j with
  | .jobj kvs => .jobj (setKV kvs k v)
  | x => x

/-- Python `str.lower()` (ASCII case folding; every name in the built-in
table is ASCII). -/
def strLower (s : String) : String :=
  ⟨s.data.map Char.toLower⟩

/-- Python `str.strip()`: drop ASCII whitespace from both ends. -/
def pyStrip (s : String) : String :=
  let ws := fun c => c == ' ' || c == '\t' || c == '\n' || c == '\r' ||
    c == '\x0b' || c == '\x0c'
  ⟨((s.data.dropWhile ws).reverse.dropWhile ws).reverse⟩

/-- Helper for `hasSub`: does `sub` occur as a prefix at any position? -/
def hasSubAux (sub : List Char) : List Char → Bool
  | [] => sub.isEmpty
  | c :: rest => sub.isPrefixOf (c :: rest) || hasSubAux sub rest

/-- Python substring containment `sub in hay`. -/
def hasSub (hay sub : String) : Bool :=
  hasSubAux sub.data hay.data

/-- A built-in readings table entry: the four reading slots as a JSON dict. -/
def mkReadings (fl ps sl go : String) : JVal :=
  .jobj [("first_lesson", .jstr fl), ("psalm", .jstr ps),
         ("second_lesson", .jstr sl), ("gospel", .jstr go)]

/-- `BUILTIN_YEAR_A`: the ordered built-in Year A table. -/
def BUILTIN_YEAR_A : List (String × JVal) :=
  [("The First Sunday of Advent",
     mkReadings "Isaiah 2:1-5" "Psalm 122" "Romans 13:11-14" "Matthew 24:36-44"),
   ("The Second Sunday of Advent",
     mkReadings "Isaiah 11:1-10" "Psalm 72:1-7, 18-19" "Romans 15:4-13" "Matthew 3:1-12"),
   ("The Third Sunday of Advent",
     mkReadings "Isaiah 35:1-10" "Psalm 146:4-9 or Canticle 15" "James 5:7-10" "Matthew 11:2-11"),
   ("The Fourth Sunday of Advent",
     mkReadings "Isaiah 7:10-16" "Psalm 80:1-7, 16-18" "Romans 1:1-7" "Matthew 1:18-25"),
   ("Christmas",
     mkReadings "Isaiah 9:2-7" "Psalm 96" "Titus 2:11-14" "Luke 2:1-20"),
   ("The Epiphany",
     mkReadings "Isaiah 60:1-6" "Psalm 72:1-7, 10-14" "Ephesians 3:1-12" "Matthew 2:1-12"),
   ("The First Sunday after the Epiphany",
     mkReadings "Isaiah 42:1-9" "Psalm 29" "Acts 10:34-43" "Matthew 3:13-17"),
   ("The Second Sunday after the Epiphany",
     mkReadings "Isaiah 49:1-7" "Psalm 40:1-12" "1 Corinthians 1:1-9" "John 1:29-42"),
   ("The Third Sunday after the Epiphany",
     mkReadings "Isaiah 9:1-4" "Psalm 27:1, 5-13" "1 Corinthians 1:10-18" "Matthew 4:12-23"),
   ("The Fourth Sunday after the Epiphany",
     mkReadings "Micah 6:1-8" "Psalm 15" "1 Corinthians 1:18-31" "Matthew 5:1-12"),
   ("The Fifth Sunday after the Epiphany",
     mkReadings "Isaiah 58:1-9a" "Psalm 112:1-9" "1 Corinthians 2:1-12" "Matthew 5:13-20"),
   ("The Sixth Sunday after the Epiphany",
     mkReadings "Deuteronomy 30:15-20" "Psalm 119:1-8" "1 Corinthians 3:1-9" "Matthew 5:21-37"),
   ("The Seventh Sunday after the Epiphany",
     mkReadings "Leviticus 19:1-2, 9-18" "Psalm 119:33-40" "1 Corinthians 3:10-11, 16-23" "Matthew 5:38-48"),
   ("The Last Sunday after the Epiphany",
     mkReadings "Exodus 24:12-18" "Psalm 2 or Psalm 99" "2 Peter 1:16-21" "Matthew 17:1-9"),
   ("The First Sunday in Lent",
     mkReadings "Genesis 2:15-17; 3:1-7" "Psalm 32" "Romans 5:12-19" "Matthew 4:1-11"),
   ("The Second Sunday in Lent",
     mkReadings "Genesis 12:1-4a" "Psalm 121" "Romans 4:1-5, 13-17" "John 3:1-17"),
   ("The Third Sunday in Lent",
     mkReadings "Exodus 17:1-7" "Psalm 95" "Romans 5:1-11" "John 4:5-42"),
   ("The Fourth Sunday in Lent",
     mkReadings "1 Samuel 16:1-13" "Psalm 23" "Ephesians 5:8-14" "John 9:1-41"),
   ("The Fifth Sunday in Lent",
     mkReadings "Ezekiel 37:1-14" "Psalm 130" "Romans 8:6-11" "John 11:1-45"),
   ("Palm Sunday",
     mkReadings "Isaiah 50:4-9a" "Psalm 31:9-16" "Philippians 2:5-11" "Matthew 26:14-27:66"),
   ("Easter Day",
     mkReadings "Acts 10:34-43" "Psalm 118:1-2, 14-24" "Colossians 3:1-4" "Matthew 28:1-10"),
   ("The Second Sunday of Easter",
     mkReadings "Acts 2:14a, 22-32" "Psalm 16" "1 Peter 1:3-9" "John 20:19-31"),
   ("The Third Sunday of Easter",
     mkReadings "Acts 2:14a, 36-41" "Psalm 116:1-3, 10-17" "1 Peter 1:17-23" "Luke 24:13-35"),
   ("The Day of Pentecost",
     mkReadings "Acts 2:1-21" "Psalm 104:25-35, 37" "1 Corinthians 12:3b-13" "John 20:19-23"),
   ("Trinity Sunday",
     mkReadings "Genesis 1:1-2:4a" "Psalm 8" "2 Corinthians 13:11-13" "Matthew 28:16-20")]

/-- The result dictionary a builtin-tier hit produces. -/
def mkBuiltinResult (readings : JVal) : JVal :=
  .jobj [("source", .jstr "builtin-year-a"), ("readings", readings)]

/-- The accumulator loop of `_lookup_builtin`'s partial-match fallback:
`best_match` / `best_len` updated when a pattern is a substring of the name
and strictly longer than the best so far. -/
def bestLoop : List (String × JVal) → String → Option JVal → Nat → Option JVal
  | [], _, best, _ => best
  | (pattern, readings) :: rest, name_lower, best, best_len =>
      let p_lower := strLower pattern
      if hasSub name_lower p_lower ∧ best_len < p_lower.length then
        bestLoop rest name_lower (some (mkBuiltinResult readings)) p_lower.length
      else
        bestLoop rest name_lower best best_len

/-- `_lookup_builtin`: exact case-insensitive match first (first entry wins),
then the longest-substring fallback loop. -/
def lookup_builtin (day_name : String) : Option JVal :=
  if day_name = "" then none
  else
    let name_lower := pyStrip (strLower day_name)
    match BUILTIN_YEAR_A.find? (fun e => strLower e.1 == name_lower) with
    | some e => some (mkBuiltinResult e.2)
    | none => bestLoop BUILTIN_YEAR_A name_lower none 0

/-- Outcome of opening and JSON-parsing one local dataset file.  `err`
covers every exception the tier's `try` swallows (unreadable file, invalid
JSON, a payload whose iteration or `.get` raises); `absent` is
`filepath.exists()` returning false; `parsed` is a successfully loaded
list of office records. -/
inductive FileR where
  | err
  | absent
  | parsed (offices : List JVal)

/-- Outcome of the single HTTP request of the remote tier.  `err` covers
transport errors, timeouts and a missing `httpx`; `resp` carries the status
code and the body (`none` when `resp.json()` would raise). -/
inductive HttpR where
  | err
  | resp (status : Nat) (body : Option JVal)

/-- The external world of one `LectionaryService` instance: whether the
Redis client was constructed (`redis_url` given and `ping` succeeded),
injected cache faults (exceptions inside `_cache_get` / `_cache_set`),
whether `daily_office_path` was configured, the dataset files by name, and
the remote service's response. -/
structure World where
  redisOk : Bool
  getRaises : Bool
  setRaises : Bool
  hasPath : Bool
  fileFor : String → FileR
  http : HttpR

/-- The Redis store: key, remaining time-to-live in seconds, and the stored
value.  `json.dumps`/`json.loads` round-trip every value this service
stores, so serialisation is modelled as the identity on `JVal`. -/
structure CacheState where
  entries : List (String × Nat × JVal)

/-- `_cache_get`: `None` without a client; an exception inside the `try` is
swallowed to `None`; otherwise the parsed stored value (a stored dump is a
nonempty string, hence truthy). -/
def cache_get (w : World) (st : CacheState) (key : String) : Option JVal :=
  if !w.redisOk then none
  else if w.getRaises then none
  else match st.entries.find? (fun e => e.1 == key) with
    | some e => some e.2.2
    | none => none

/-- `setex`: replace an existing key in place or append a fresh one. -/
def setEntry : List (String × Nat × JVal) → String → Nat → JVal → List (String × Nat × JVal)
  | [], key, ttl, v => [(key, ttl, v)]
  | e :: rest, key, ttl, v =>
      if e.1 == key then (key, ttl, v) :: rest else e :: setEntry rest key ttl v

/-- `_cache_set`: no-op without a client; an exception inside the `try` is
swallowed (`pass`); otherwise `setex(key, ttl, json.dumps(data))`. -/
def cache_set (w : World) (st : CacheState) (key : String) (data : JVal) (ttl : Nat) : CacheState :=
  if !w.redisOk then st
  else if w.setRaises then st
  else ⟨setEntry st.entries key ttl data⟩

/-- Month names as produced by `strftime("%B")`. -/
def monthName (m : Nat) : String :=
  match m with
  | 1 => "January" | 2 => "February" | 3 => "March" | 4 => "April"
  | 5 => "May" | 6 => "June" | 7 => "July" | 8 => "August"
  | 9 => "September" | 10 => "October" | 11 => "November" | 12 => "December"
  | _ => ""

/-- `dt.strftime("%B %d").replace(" 0", " ")`: month name plus the day
without zero padding (the replacement strips exactly the pad; no month name
contains the two-character sequence space-zero). -/
def dayPattern (dt : Date) : String :=
  monthName dt.month ++ " " ++ toString dt.day

/-- The `for office in offices:` scan of `_lookup_daily_office`.  A record
without a usable `day` field simply fails the string comparison
(`office.get("day", "") == target`); a non-dict record makes `.get` raise,
which the surrounding `try` turns into a whole-tier miss (`.error`). -/
def officeScan (target : String) : List JVal → Except Unit (Option JVal)
  | [] => .ok none
  | office :: rest =>
      match office with
      | .jobj kvs =>
          if (match (kvs.find? (fun p => p.1 == "day")).map (fun p => p.2) with
              | some (.jstr s) => s == target
              | _ => false) then
            .ok (some (.jobj kvs))
          else officeScan target rest
      | _ => .error ()

/-- `_lookup_daily_office`: tier 2.  Selects `year-one.json`/`year-two.json`
by the simplified daily-office year (approximate Advent boundary Nov 27),
then scans the file's records for the month/day pattern. -/
def lookup_daily_office (w : World) (dt : Date) : Option JVal :=
  if !w.hasPath then none
  else
    let year_num := if dateLt dt ⟨dt.year, 11, 27⟩ then dt.year - 1 else dt.year
    let filename := if year_num % 2 = 1 then "year-one.json" else "year-two.json"
    match w.fileFor filename with
    | .err => none
    | .absent => none
    | .parsed offices =>
        match officeScan (dayPattern dt) offices with
        | .error _ => none
        | .ok none => none
        | .ok (some office) =>
            some (.jobj [("source", .jstr "daily-office-json"), ("readings", office)])

/-- `_lookup_lectserve`: tier 3.  Only HTTP 200 with a parseable body is a
hit; any transport error, non-200 status or JSON parse failure is a miss. -/
def lookup_lectserve (w : World) (_dt : Date) : Option JVal :=
  match w.http with
  | .err => none
  | .resp status body =>
      if status = 200 then
        match body with
        | some data => some (.jobj [("source", .jstr "lectserve"), ("readings", data)])
        | none => none
      else none

/-- Zero-padded decimal rendering of width `w`. -/
def padNum (w n : Nat) : String :=
  let s := toString n
  ⟨List.replicate (w - s.length) '0'⟩ ++ s

/-- `date.isoformat()`: `YYYY-MM-DD`. -/
def isoDate (d : Date) : String :=
  padNum 4 d.year ++ "-" ++ padNum 2 d.month ++ "-" ++ padNum 2 d.day

/-- Tiers 2-4 of `get_readings` in order: local dataset, then remote
service, then (only when a truthy `day_name` was supplied) the built-in
table. -/
def tier_chain (w : World) (dt : Date) (day_name : Option String) : Option JVal :=
  match lookup_daily_office w dt with
  | some result => some result
  | none =>
      match lookup_lectserve w dt with
      | some result => some result
      | none =>
          match day_name with
          | some dn => if dn = "" then none else lookup_builtin dn
          | none => none

/-- The `source_tier = none` result of a four-tier miss. -/
def noReadingsResult : JVal :=
  .jobj [("source", .jstr "none"), ("readings", .jnull),
         ("message", .jstr "No readings found")]

/-- Tail of `get_readings` after the cache tier: run tiers 2-4, write a hit
back through `_cache_set` with `ttl = 86400 * 7`, or fall out to the
`source: none` result. -/
def resolve_tiers (w : World) (st : CacheState) (dt : Date) (day_name : Option String)
    (cache_key : String) : JVal × CacheState :=
  match tier_chain w dt day_name with
  | some result => (result, cache_set w st cache_key result (86400 * 7))
  | none => (noReadingsResult, st)

/-- `get_readings`.  The cache tier returns immediately on a truthy cached
payload after `cached["source"] = "redis-cache"`; that assignment raises a
`TypeError` (modelled as `.error`) when the parsed payload is truthy but not
a dict.  A falsy payload (or cache miss) falls through to tiers 2-4. -/
def get_readings (w : World) (st : CacheState) (dt : Date) (day_name : Option String) :
    Except String (JVal × CacheState) :=
  let cache_key := "rcl:" ++ isoDate dt
  match cache_get w st cache_key with
  | some cached =>
      if jTruthy cached then
        match cached with
        | .jobj kvs => .ok (.jobj (setKV kvs "source" (.jstr "redis-cache")), st)
        | _ => .error "TypeError: cache payload does not support item assignment"
      else .ok (resolve_tiers w st dt day_name cache_key)
  | none => .ok (resolve_tiers w st dt day_name cache_key)

/-!  General lemmas about the date order and the Advent computation.  -/

lemma dateLe_iff (a b : Date) :
    dateLe a b = true ↔ (a.year < b.year ∨ (a.year = b.year ∧
      (a.month < b.month ∨ (a.month = b.month ∧ a.day ≤ b.day)))) := by
  simp [dateLe]

lemma dateLt_iff (a b : Date) :
    dateLt a b = true ↔ (a.year < b.year ∨ (a.year = b.year ∧
      (a.month < b.month ∨ (a.month = b.month ∧ a.day < b.day)))) := by
  simp [dateLt]

lemma dateLe_year_le {a b : Date} (h : dateLe a b = true) : a.year ≤ b.year := by
  rw [dateLe_iff] at h; omega

lemma dateLt_year_le {a b : Date} (h : dateLt a b = true) : a.year ≤ b.year := by
  rw [dateLt_iff] at h; omega

lemma dateLt_asymm {a b : Date} (h : dateLt a b = true) : dateLe b a = false := by
  rw [dateLt_iff] at h
  rw [← Bool.not_eq_true, dateLe_iff]
  omega

/-- Subtracting the Sunday offset (at most 6 days) and then three weeks from
December 25 never leaves the year. -/
lemma advent_sub_cases (y : Nat) : ∀ k, k < 7 →
    (subDays (subDays (⟨y, 12, 25⟩ : Date) k) 21).year = y := by
  intro k hk
  interval_cases k <;> rfl

lemma advent_year (y : Nat) : (firstSundayOfAdvent y).year = y := by
  unfold firstSundayOfAdvent
  exact advent_sub_cases y _ (Nat.mod_lt _ (by omega))

/-- C1: for a date `D` lying on or after the program's first Sunday of
Advent of year `L` and strictly before the next one, the Sunday reading
cycle is `{0:"A",1:"B",2:"C"}[L % 3]` and the daily-office cycle is Year One
exactly when `L` is odd: both cycles are pure functions of the liturgical
year `L` and hence constant across the whole Advent-to-Advent span. -/
theorem claim_c1 (D : Date) (L : Nat)
    (h1 : dateLe (firstSundayOfAdvent L) D = true)
    (h2 : dateLt D (firstSundayOfAdvent (L + 1)) = true) :
    calculate_rcl_year D = (if L % 3 = 0 then "A" else if L % 3 = 1 then "B" else "C") ∧
    calculate_lectionary_year D = (if L % 2 = 1 then "Year One" else "Year Two") := by
  have hy1 : L ≤ D.year := by
    have := dateLe_year_le h1
    rwa [advent_year] at this
  have hy2 : D.year ≤ L + 1 := by
    have := dateLt_year_le h2
    rwa [advent_year] at this
  have hkey : (if dateLe (firstSundayOfAdvent D.year) D then D.year else D.year - 1) = L := by
    rcases (by omega : D.year = L ∨ D.year = L + 1) with h | h
    · rw [h, h1]; simp
    · rw [h, dateLt_asymm h2]; simp
  constructor
  · simp only [calculate_rcl_year]
    rw [hkey]
    rcases (by omega : L % 3 = 0 ∨ L % 3 = 1 ∨ L % 3 = 2) with h | h | h <;> rw [h] <;> rfl
  · simp only [calculate_lectionary_year]
    rw [hkey]

/-- Witness for C1 at December 25, 2025 (liturgical year 2025, cycle A,
daily office Year One). -/
theorem claim_c1_witness :
    dateLe (firstSundayOfAdvent 2025) ⟨2025, 12, 25⟩ = true ∧
    dateLt ⟨2025, 12, 25⟩ (firstSundayOfAdvent (2025 + 1)) = true ∧
    (calculate_rcl_year ⟨2025, 12, 25⟩ =
        (if 2025 % 3 = 0 then "A" else if 2025 % 3 = 1 then "B" else "C") ∧
      calculate_lectionary_year ⟨2025, 12, 25⟩ =
        (if 2025 % 2 = 1 then "Year One" else "Year Two")) :=
  ⟨by decide, by decide, claim_c1 ⟨2025, 12, 25⟩ 2025 (by decide) (by decide)⟩

/-- Bounds and Sunday-ness of one Computus result, as one Boolean check. -/
def computusCheck (y : Nat) : Bool :=
  dateLe ⟨y, 3, 22⟩ (computus y) && dateLe (computus y) ⟨y, 4, 25⟩ &&
    (weekday (computus y) == 6)

set_option maxHeartbeats 4000000 in
lemma computusCheck_range :
    ((List.range 301).all (fun i => computusCheck (1900 + i))) = true := by
  decide

/-- C2: for every year in [1900, 2200] the Computus result lies between
March 22 and April 25 inclusive (of that same year) and falls on a Sunday
(Python weekday 6). -/
theorem claim_c2 (y : Nat) (h1 : 1900 ≤ y) (h2 : y ≤ 2200) :
    dateLe ⟨y, 3, 22⟩ (computus y) = true ∧
    dateLe (computus y) ⟨y, 4, 25⟩ = true ∧
    weekday (computus y) = 6 ∧ (computus y).year = y := by
  have h := List.all_eq_true.mp computusCheck_range (y - 1900)
    (List.mem_range.mpr (by omega))
  rw [show 1900 + (y - 1900) = y by omega] at h
  simp only [computusCheck, Bool.and_eq_true, beq_iff_eq] at h
  exact ⟨h.1.1, h.1.2, h.2, rfl⟩

/-- Witness for C2 at the year 2025 (Easter April 20, 2025, a Sunday). -/
theorem claim_c2_witness :
    (1900 ≤ 2025) ∧ (2025 ≤ 2200) ∧
    (dateLe ⟨2025, 3, 22⟩ (computus 2025) = true ∧
     dateLe (computus 2025) ⟨2025, 4, 25⟩ = true ∧
     weekday (computus 2025) = 6 ∧ (computus 2025).year = 2025) :=
  ⟨by decide, by decide, claim_c2 2025 (by decide) (by decide)⟩

/-- C3: the Advent computation is wrong in years whose Christmas falls on a
Sunday.  For 2022 it returns December 4 - a Sunday, but strictly after
December 3, outside the claimed November 27 - December 3 window (the actual
First Sunday of Advent 2022 was November 27, itself a Sunday). -/
theorem claim_c3_bug_eval :
    firstSundayOfAdvent 2022 = ⟨2022, 12, 4⟩ ∧
    weekday ⟨2022, 12, 25⟩ = 6 ∧
    weekday (firstSundayOfAdvent 2022) = 6 ∧
    dateLt ⟨2022, 12, 3⟩ (firstSundayOfAdvent 2022) = true ∧
    weekday ⟨2022, 11, 27⟩ = 6 := by
  decide

/-- C4: in the built-in fallback of `get_calendar_info`, every date from
December 25 onward satisfies `dt >= advent`, so the season comes out as
"Advent" (colour "Purple"); the `season = "Christmas"` branch for those
dates is unreachable.  Evaluated at December 25, 28 and 31, 2025. -/
theorem claim_c4_bug_eval :
    (get_calendar_info .unavailable ⟨2025, 12, 25⟩).season = "Advent" ∧
    (get_calendar_info .unavailable ⟨2025, 12, 25⟩).colour = "Purple" ∧
    (get_calendar_info .unavailable ⟨2025, 12, 28⟩).season = "Advent" ∧
    (get_calendar_info .unavailable ⟨2025, 12, 31⟩).season = "Advent" := by
  decide

/-!  The ranked-candidate characterisation of the builtin lookup.  -/

/-- The (case-folded) character length of a table entry's name. -/
def lenL (e : String × JVal) : Nat := (strLower e.1).length

/-- The candidate entries: those whose case-folded name is a substring of
the supplied (case-folded, stripped) day name. -/
def candsOf (nl : String) (tbl : List (String × JVal)) : List (String × JVal) :=
  tbl.filter (fun e => hasSub nl (strLower e.1))

/-- Greatest candidate name length, with floor `b`. -/
def maxLen (l : List (String × JVal)) (b : Nat) : Nat :=
  l.foldr (fun e m => max (lenL e) m) b

lemma maxLen_cons (e : String × JVal) (l : List (String × JVal)) (b : Nat) :
    maxLen (e :: l) b = max (lenL e) (maxLen l b) := rfl

lemma maxLen_base (l : List (String × JVal)) (b : Nat) :
    maxLen l b = max (maxLen l 0) b := by
  induction l with
  | nil => simp [maxLen]
  | cons e t ih => rw [maxLen_cons, maxLen_cons, ih]; omega

/-- The accumulator loop of `_lookup_builtin` selects the first candidate of
maximal name length among those longer than the incoming accumulator - the
explicit ranked-candidate reading of the scan. -/
lemma bestLoop_eq (nl : String) (tbl : List (String × JVal)) :
    ∀ (best : Option JVal) (blen : Nat),
      bestLoop tbl nl best blen =
        if blen < maxLen (candsOf nl tbl) blen then
          ((candsOf nl tbl).find? (fun e => lenL e == maxLen (candsOf nl tbl) blen)).map
            (fun e => mkBuiltinResult e.2)
        else best := by
  induction tbl with
  | nil =>
      intro best blen
      simp [bestLoop, candsOf, maxLen]
  | cons hd t ih =>
      intro best blen
      obtain ⟨p, r⟩ := hd
      by_cases hc : hasSub nl (strLower p) = true
      · have hcands : candsOf nl ((p, r) :: t) = (p, r) :: candsOf nl t := by
          simp [candsOf, List.filter, hc]
        by_cases hb : blen < (strLower p).length
        · have hstep : bestLoop ((p, r) :: t) nl best blen
              = bestLoop t nl (some (mkBuiltinResult r)) (strLower p).length := by
            simp [bestLoop, hc, hb]
          rw [hstep, ih, hcands]
          rw [maxLen_cons, maxLen_base (candsOf nl t) (strLower p).length,
              maxLen_base (candsOf nl t) blen]
          have hP : lenL (p, r) = (strLower p).length := rfl
          rw [hP]
          rcases le_or_lt (maxLen (candsOf nl t) 0) (strLower p).length with hK | hK
          · -- the head realises the maximum
            have h1 : ¬ ((strLower p).length
                < max (maxLen (candsOf nl t) 0) (strLower p).length) := by omega
            have h2 : blen
                < max (strLower p).length (max (maxLen (candsOf nl t) 0) blen) := by omega
            rw [if_neg h1, if_pos h2]
            have h3 : max (strLower p).length (max (maxLen (candsOf nl t) 0) blen)
                = (strLower p).length := by omega
            rw [h3]
            rw [List.find?_cons_of_pos _ (by simp [hP])]
            simp
          · -- the maximum lives in the tail
            have h1 : (strLower p).length
                < max (maxLen (candsOf nl t) 0) (strLower p).length := by omega
            have h2 : blen
                < max (strLower p).length (max (maxLen (candsOf nl t) 0) blen) := by omega
            rw [if_pos h1, if_pos h2]
            have h3 : max (strLower p).length (max (maxLen (candsOf nl t) 0) blen)
                = max (maxLen (candsOf nl t) 0) (strLower p).length := by omega
            rw [h3]
            rw [List.find?_cons_of_neg _ (by simp [hP]; omega)]
        · have hstep : bestLoop ((p, r) :: t) nl best blen = bestLoop t nl best blen := by
            simp [bestLoop, hc, hb]
          rw [hstep, ih, hcands]
          rw [maxLen_cons, maxLen_base (candsOf nl t) blen]
          have hP : lenL (p, r) = (strLower p).length := rfl
          have h3 : max (lenL (p, r)) (max (maxLen (candsOf nl t) 0) blen)
              = max (maxLen (candsOf nl t) 0) blen := by rw [hP]; omega
          rw [h3]
          by_cases h4 : blen < max (maxLen (candsOf nl t) 0) blen
          · rw [if_pos h4, if_pos h4]
            rw [List.find?_cons_of_neg _ (by simp [hP]; omega)]
          · rw [if_neg h4, if_neg h4]
      · have hcands : candsOf nl ((p, r) :: t) = candsOf nl t := by
          simp [candsOf, List.filter, hc]
        have hstep : bestLoop ((p, r) :: t) nl best blen = bestLoop t nl best blen := by
          simp [bestLoop, hc]
        rw [hstep, ih, hcands]

lemma builtin_names_nonempty : ∀ e ∈ BUILTIN_YEAR_A, 0 < lenL e := by decide

/-- The spec's description of tier 4 as an explicit ranked-candidate search:
exact case-insensitive match on the (stripped) day name first, otherwise
collect every entry whose case-folded name is a substring of the day name
and take the first one of greatest length (table order breaks ties),
otherwise nothing. -/
def lookupBuiltinRanked (day_name : String) : Option JVal :=
  let name_lower := pyStrip (strLower day_name)
  match BUILTIN_YEAR_A.find? (fun e => strLower e.1 == name_lower) with
  | some e => some (mkBuiltinResult e.2)
  | none =>
      let cands := candsOf name_lower BUILTIN_YEAR_A
      let M := maxLen cands 0
      (cands.find? (fun e => lenL e == M)).map (fun e => mkBuiltinResult e.2)

/-- C5: for every non-empty day name, `_lookup_builtin` returns exactly what
the ranked-candidate search returns: the exact case-insensitive match if one
exists, else the longest substring-matching entry with ties broken in favour
of the first-inserted entry, else nothing. -/
theorem claim_c5 (dn : String) (h : dn ≠ "") :
    lookup_builtin dn = lookupBuiltinRanked dn := by
  simp only [lookup_builtin, lookupBuiltinRanked, if_neg h]
  cases hf : BUILTIN_YEAR_A.find? (fun e => strLower e.1 == pyStrip (strLower dn)) with
  | some e => rfl
  | none =>
      rw [bestLoop_eq]
      cases hc : candsOf (pyStrip (strLower dn)) BUILTIN_YEAR_A with
      | nil => simp [maxLen]
      | cons e t =>
          have he : e ∈ BUILTIN_YEAR_A := by
            have : e ∈ candsOf (pyStrip (strLower dn)) BUILTIN_YEAR_A := by
              rw [hc]; exact List.mem_cons_self e t
            exact List.mem_of_mem_filter this
          have hpos : 0 < lenL e := builtin_names_nonempty e he
          have hM : 0 < maxLen (e :: t) 0 := by
            rw [maxLen_cons]; omega
          rw [if_pos hM]

/-- Witness for C5 on a day name that exercises the substring fallback. -/
theorem claim_c5_witness :
    ("On The Second Sunday of Easter 2026" ≠ "") ∧
    lookup_builtin "On The Second Sunday of Easter 2026"
      = lookupBuiltinRanked "On The Second Sunday of Easter 2026" :=
  ⟨by decide, claim_c5 "On The Second Sunday of Easter 2026" (by decide)⟩

/-- C6 counterexample: with cache, dataset and remote service all
unavailable, the lookup for 2026-01-25 with day name "The Third Sunday after
the Epiphany" does resolve through the built-in tier, but its psalm citation
is "Psalm 27:1, 5-13", not "Psalm 27" as the claim states. -/
theorem claim_c6_counterexample :
    get_readings ⟨false, false, false, false, fun _ => FileR.absent, HttpR.err⟩ ⟨[]⟩
        ⟨2026, 1, 25⟩ (some "The Third Sunday after the Epiphany")
      = .ok (.jobj [("source", .jstr "builtin-year-a"),
          ("readings", mkReadings "Isaiah 9:1-4" "Psalm 27:1, 5-13"
            "1 Corinthians 1:10-18" "Matthew 4:12-23")], ⟨[]⟩) ∧
    objLookup (mkReadings "Isaiah 9:1-4" "Psalm 27:1, 5-13"
        "1 Corinthians 1:10-18" "Matthew 4:12-23") "psalm"
      = some (.jstr "Psalm 27:1, 5-13") ∧
    "Psalm 27:1, 5-13" ≠ "Psalm 27" :=
  ⟨rfl, rfl, by decide⟩

/-- C6 (amended): whenever tier 1 misses and tiers 2 and 3 yield nothing for
2026-01-25, the call with day name "The Third Sunday after the Epiphany"
resolves via the built-in tier (`source = "builtin-year-a"`) to the reading
set Isaiah 9:1-4 / Psalm 27:1, 5-13 / 1 Corinthians 1:10-18 /
Matthew 4:12-23, writing the result through `_cache_set`. -/
theorem claim_c6 (w : World) (st : CacheState)
    (h1 : cache_get w st "rcl:2026-01-25" = none)
    (h2 : lookup_daily_office w ⟨2026, 1, 25⟩ = none)
    (h3 : lookup_lectserve w ⟨2026, 1, 25⟩ = none) :
    get_readings w st ⟨2026, 1, 25⟩ (some "The Third Sunday after the Epiphany")
      = .ok (.jobj [("source", .jstr "builtin-year-a"),
            ("readings", mkReadings "Isaiah 9:1-4" "Psalm 27:1, 5-13"
              "1 Corinthians 1:10-18" "Matthew 4:12-23")],
          cache_set w st "rcl:2026-01-25"
            (.jobj [("source", .jstr "builtin-year-a"),
              ("readings", mkReadings "Isaiah 9:1-4" "Psalm 27:1, 5-13"
                "1 Corinthians 1:10-18" "Matthew 4:12-23")]) (86400 * 7)) := by
  have hk : ("rcl:" ++ isoDate ⟨2026, 1, 25⟩) = "rcl:2026-01-25" := rfl
  simp only [get_readings]
  rw [hk, h1]
  simp only [resolve_tiers, tier_chain]
  rw [h2, h3]
  rfl

/-- Witness for C6: a concrete world with no Redis client, no dataset path
and an unreachable remote service. -/
theorem claim_c6_witness :
    (cache_get ⟨false, false, false, false, fun _ => FileR.absent, HttpR.err⟩ ⟨[]⟩
        "rcl:2026-01-25" = none) ∧
    (lookup_daily_office ⟨false, false, false, false, fun _ => FileR.absent, HttpR.err⟩
        ⟨2026, 1, 25⟩ = none) ∧
    (lookup_lectserve ⟨false, false, false, false, fun _ => FileR.absent, HttpR.err⟩
        ⟨2026, 1, 25⟩ = none) ∧
    get_readings ⟨false, false, false, false, fun _ => FileR.absent, HttpR.err⟩ ⟨[]⟩
        ⟨2026, 1, 25⟩ (some "The Third Sunday after the Epiphany")
      = .ok (.jobj [("source", .jstr "builtin-year-a"),
            ("readings", mkReadings "Isaiah 9:1-4" "Psalm 27:1, 5-13"
              "1 Corinthians 1:10-18" "Matthew 4:12-23")],
          cache_set ⟨false, false, false, false, fun _ => FileR.absent, HttpR.err⟩ ⟨[]⟩
            "rcl:2026-01-25"
            (.jobj [("source", .jstr "builtin-year-a"),
              ("readings", mkReadings "Isaiah 9:1-4" "Psalm 27:1, 5-13"
                "1 Corinthians 1:10-18" "Matthew 4:12-23")]) (86400 * 7)) :=
  ⟨rfl, rfl, rfl,
    claim_c6 ⟨false, false, false, false, fun _ => FileR.absent, HttpR.err⟩ ⟨[]⟩
      rfl rfl rfl⟩

/-- C7 counterexample: a cache entry whose payload is the valid JSON value
`5` is truthy but not a dict, so `cached["source"] = "redis-cache"` raises a
`TypeError` that no `try` catches: `get_readings` surfaces an error even
though every failure inside a tier is supposedly swallowed. -/
theorem claim_c7_counterexample :
    get_readings ⟨true, false, false, false, fun _ => FileR.absent, HttpR.err⟩
        ⟨[("rcl:2026-01-25", 604800, JVal.jnum 5)]⟩ ⟨2026, 1, 25⟩ none
      = .error "TypeError: cache payload does not support item assignment" :=
  rfl

/-- C7 (amended): when all four tiers miss, `get_readings` returns the
`source = "none"` result with null readings and an unchanged cache; a
raising cache client, an unreadable dataset file and a network failure are
each swallowed as that tier's miss; and the lookup never surfaces an error
provided every truthy cached payload is a JSON object - a truthy non-object
cache payload is the one input on which the source-field assignment raises. -/
theorem claim_c7 (w : World) (st : CacheState) (d : Date) (dn : Option String)
    (h1 : cache_get w st ("rcl:" ++ isoDate d) = none)
    (h2 : lookup_daily_office w d = none)
    (h3 : lookup_lectserve w d = none)
    (h4 : ∀ s, dn = some s → s = "" ∨ lookup_builtin s = none) :
    get_readings w st d dn = .ok (noReadingsResult, st) ∧
    (w.getRaises = true → ∀ st2 k, cache_get w st2 k = none) ∧
    ((∀ f, w.fileFor f = FileR.err) → ∀ e, lookup_daily_office w e = none) ∧
    (w.http = HttpR.err → ∀ e, lookup_lectserve w e = none) ∧
    (∀ st2 dn2, (∀ v, cache_get w st2 ("rcl:" ++ isoDate d) = some v →
        jTruthy v = false ∨ ∃ kvs, v = JVal.jobj kvs) →
      ∃ out, get_readings w st2 d dn2 = .ok out) := by
  refine ⟨?_, ?_, ?_, ?_, ?_⟩
  · simp only [get_readings]
    rw [h1]
    simp only [resolve_tiers, tier_chain]
    rw [h2, h3]
    cases dn with
    | none => rfl
    | some s =>
        rcases h4 s rfl with hs | hs
        · subst hs; rfl
        · by_cases hz : s = ""
          · subst hz; rfl
          · simp [hz, hs]
  · intro hg st2 k
    cases hr : w.redisOk <;> simp [cache_get, hg, hr]
  · intro hf e
    by_cases hp : w.hasPath <;> simp [lookup_daily_office, hp, hf]
  · intro hh e
    simp [lookup_lectserve, hh]
  · intro st2 dn2 hv
    simp only [get_readings]
    cases hc : cache_get w st2 ("rcl:" ++ isoDate d) with
    | none => exact ⟨_, rfl⟩
    | some v =>
        rcases hv v hc with ht | ⟨kvs, rfl⟩
        · exact ⟨resolve_tiers w st2 d dn2 ("rcl:" ++ isoDate d), by simp [ht]⟩
        · cases ht : jTruthy (JVal.jobj kvs)
          · exact ⟨resolve_tiers w st2 d dn2 ("rcl:" ++ isoDate d), by simp [ht]⟩
          · exact ⟨(JVal.jobj (setKV kvs "source" (.jstr "redis-cache")), st2),
              by simp [ht]⟩

/-- A world in which every collaborator fails: the cache client raises, the
dataset files are unreadable, the network is down. -/
def worldAllFail : World := ⟨true, true, false, true, fun _ => FileR.err, HttpR.err⟩

/-- Witness for C7 in the all-failing world with an unknown day name. -/
theorem claim_c7_witness :
    (cache_get worldAllFail ⟨[]⟩ ("rcl:" ++ isoDate ⟨2026, 1, 25⟩) = none) ∧
    (lookup_daily_office worldAllFail ⟨2026, 1, 25⟩ = none) ∧
    (lookup_lectserve worldAllFail ⟨2026, 1, 25⟩ = none) ∧
    (get_readings worldAllFail ⟨[]⟩ ⟨2026, 1, 25⟩ (some "zzz")
        = .ok (noReadingsResult, (⟨[]⟩ : CacheState))) :=
  ⟨rfl, rfl, rfl,
    (claim_c7 worldAllFail ⟨[]⟩ ⟨2026, 1, 25⟩ (some "zzz") rfl rfl rfl
      (fun s hs => by cases hs; exact Or.inr rfl)).1⟩

/-!  Lemmas for the cache write-back round trip.  -/

lemma setEntry_find (key : String) (ttl : Nat) (v : JVal) :
    ∀ l : List (String × Nat × JVal),
      (setEntry l key ttl v).find? (fun e => e.1 == key) = some (key, ttl, v) := by
  intro l
  induction l with
  | nil => simp [setEntry]
  | cons e rest ih =>
      by_cases he : (e.1 == key) = true
      · simp [setEntry, he]
      · obtain ⟨k3, t3, v3⟩ := e
        simp only [setEntry]
        rw [if_neg (by simpa using he)]
        rw [List.find?_cons_of_neg _ (by simpa using he)]
        exact ih

lemma find?_setKV_ne (k k2 : String) (hk : (k == k2) = false) :
    ∀ (kvs : List (String × JVal)) (v : JVal),
      (setKV kvs k v).find? (fun p => p.1 == k2) = kvs.find? (fun p => p.1 == k2) := by
  intro kvs v
  induction kvs with
  | nil => simp [setKV, List.find?, hk]
  | cons e rest ih =>
      obtain ⟨k3, v3⟩ := e
      by_cases h3 : (k3 == k) = true
      · have hk3 : k3 = k := by simpa using h3
        subst hk3
        simp only [setKV, if_pos h3]
        rw [List.find?_cons_of_neg _ (by simpa using hk),
            List.find?_cons_of_neg _ (by simpa using hk)]
      · simp only [setKV, if_neg h3]
        by_cases h4 : (k3 == k2) = true
        · rw [List.find?_cons_of_pos _ (by simpa using h4),
              List.find?_cons_of_pos _ (by simpa using h4)]
        · rw [List.find?_cons_of_neg _ (by simpa using h4),
              List.find?_cons_of_neg _ (by simpa using h4)]
          exact ih

lemma objSet_keeps_readings (kvs : List (String × JVal)) (v : JVal) :
    objLookup (objSet (JVal.jobj kvs) "source" v) "readings"
      = objLookup (JVal.jobj kvs) "readings" := by
  simp only [objSet, objLookup]
  rw [find?_setKV_ne "source" "readings" (by decide)]

lemma builtin_shape {s : String} {r : JVal} (h : lookup_builtin s = some r) :
    ∃ kvs, r = JVal.jobj kvs ∧ kvs ≠ [] := by
  simp only [lookup_builtin] at h
  split at h
  · exact Option.noConfusion h
  · split at h
    · cases h
      exact ⟨_, rfl, by simp⟩
    · rw [bestLoop_eq] at h
      split at h
      · rcases Option.map_eq_some'.mp h with ⟨e, hfind, hr⟩
        exact ⟨_, hr.symm, by simp [mkBuiltinResult]⟩
      · exact Option.noConfusion h

lemma daily_shape {w : World} {d : Date} {r : JVal} (h : lookup_daily_office w d = some r) :
    ∃ kvs, r = JVal.jobj kvs ∧ kvs ≠ [] := by
  simp only [lookup_daily_office] at h
  repeat' split at h
  all_goals try exact Option.noConfusion h
  all_goals (cases h; exact ⟨_, rfl, by simp⟩)

lemma lect_shape {w : World} {d : Date} {r : JVal} (h : lookup_lectserve w d = some r) :
    ∃ kvs, r = JVal.jobj kvs ∧ kvs ≠ [] := by
  simp only [lookup_lectserve] at h
  repeat' split at h
  all_goals try exact Option.noConfusion h
  all_goals (cases h; exact ⟨_, rfl, by simp⟩)

/-- Every result produced by tiers 2-4 is a nonempty JSON object (hence
truthy, and able to absorb the `source` reassignment on a later cache hit). -/
lemma tier_chain_shape {w : World} {d : Date} {dn : Option String} {r : JVal}
    (h : tier_chain w d dn = some r) :
    ∃ kvs, r = JVal.jobj kvs ∧ kvs ≠ [] := by
  simp only [tier_chain] at h
  split at h
  · cases h
    exact daily_shape (by assumption)
  · split at h
    · cases h
      exact lect_shape (by assumption)
    · split at h
      · split at h
        · exact Option.noConfusion h
        · exact builtin_shape h
      · exact Option.noConfusion h

/-- C8: with a working cache that initially misses, a result `r` produced by
tiers 2-4 is returned as-is and written through `setex` under the
`rcl:ISO-date` key with the seven-day time-to-live `86400 * 7`; the
immediately repeated identical call is served from the cache, returning `r`
with only its `source` field replaced by `"redis-cache"`, so the `readings`
content round-trips unchanged. -/
theorem claim_c8 (w : World) (st : CacheState) (d : Date) (dn : Option String) (r : JVal)
    (hredis : w.redisOk = true) (hget : w.getRaises = false) (hset : w.setRaises = false)
    (hmiss : st.entries.find? (fun e => e.1 == ("rcl:" ++ isoDate d)) = none)
    (htier : tier_chain w d dn = some r) :
    get_readings w st d dn
      = .ok (r, cache_set w st ("rcl:" ++ isoDate d) r (86400 * 7)) ∧
    (cache_set w st ("rcl:" ++ isoDate d) r (86400 * 7)).entries.find?
        (fun e => e.1 == ("rcl:" ++ isoDate d))
      = some ("rcl:" ++ isoDate d, 86400 * 7, r) ∧
    get_readings w (cache_set w st ("rcl:" ++ isoDate d) r (86400 * 7)) d dn
      = .ok (objSet r "source" (.jstr "redis-cache"),
          cache_set w st ("rcl:" ++ isoDate d) r (86400 * 7)) ∧
    objLookup (objSet r "source" (.jstr "redis-cache")) "readings"
      = objLookup r "readings" := by
  obtain ⟨kvs, rfl, hne⟩ := tier_chain_shape htier
  have hstore : (cache_set w st ("rcl:" ++ isoDate d) (JVal.jobj kvs) (86400 * 7)).entries
      = setEntry st.entries ("rcl:" ++ isoDate d) (86400 * 7) (JVal.jobj kvs) := by
    simp [cache_set, hredis, hset]
  have hfind : (cache_set w st ("rcl:" ++ isoDate d) (JVal.jobj kvs) (86400 * 7)).entries.find?
        (fun e => e.1 == ("rcl:" ++ isoDate d))
      = some ("rcl:" ++ isoDate d, 86400 * 7, JVal.jobj kvs) := by
    rw [hstore]; exact setEntry_find _ _ _ _
  refine ⟨?_, hfind, ?_, objSet_keeps_readings kvs _⟩
  · have hc : cache_get w st ("rcl:" ++ isoDate d) = none := by
      simp [cache_get, hredis, hget, hmiss]
    simp only [get_readings]
    rw [hc]
    simp only [resolve_tiers]
    rw [htier]
  · have hc2 : cache_get w (cache_set w st ("rcl:" ++ isoDate d) (JVal.jobj kvs) (86400 * 7))
        ("rcl:" ++ isoDate d) = some (JVal.jobj kvs) := by
      simp [cache_get, hredis, hget, hfind]
    have htr : jTruthy (JVal.jobj kvs) = true := by
      simp [jTruthy, hne]
    simp only [get_readings]
    rw [hc2]
    simp [htr, objSet]

/-- A world whose only live collaborator is the cache. -/
def worldOnlyCache : World := ⟨true, false, false, false, fun _ => FileR.absent, HttpR.err⟩

/-- The builtin result for the Third Sunday after the Epiphany. -/
def thirdEpiphanyResult : JVal :=
  mkBuiltinResult (mkReadings "Isaiah 9:1-4" "Psalm 27:1, 5-13"
    "1 Corinthians 1:10-18" "Matthew 4:12-23")

/-- Witness for C8: the 2026-01-25 builtin lookup, cached and re-served. -/
theorem claim_c8_witness :
    (worldOnlyCache.redisOk = true) ∧ (worldOnlyCache.getRaises = false) ∧
    (worldOnlyCache.setRaises = false) ∧
    ((⟨[]⟩ : CacheState).entries.find?
        (fun e => e.1 == ("rcl:" ++ isoDate ⟨2026, 1, 25⟩)) = none) ∧
    (tier_chain worldOnlyCache ⟨2026, 1, 25⟩ (some "The Third Sunday after the Epiphany")
      = some thirdEpiphanyResult) ∧
    (get_readings worldOnlyCache ⟨[]⟩ ⟨2026, 1, 25⟩
          (some "The Third Sunday after the Epiphany")
        = .ok (thirdEpiphanyResult, cache_set worldOnlyCache ⟨[]⟩
            ("rcl:" ++ isoDate ⟨2026, 1, 25⟩) thirdEpiphanyResult (86400 * 7)) ∧
      (cache_set worldOnlyCache ⟨[]⟩ ("rcl:" ++ isoDate ⟨2026, 1, 25⟩)
            thirdEpiphanyResult (86400 * 7)).entries.find?
          (fun e => e.1 == ("rcl:" ++ isoDate ⟨2026, 1, 25⟩))
        = some ("rcl:" ++ isoDate ⟨2026, 1, 25⟩, 86400 * 7, thirdEpiphanyResult) ∧
      get_readings worldOnlyCache
          (cache_set worldOnlyCache ⟨[]⟩ ("rcl:" ++ isoDate ⟨2026, 1, 25⟩)
            thirdEpiphanyResult (86400 * 7)) ⟨2026, 1, 25⟩
          (some "The Third Sunday after the Epiphany")
        = .ok (objSet thirdEpiphanyResult "source" (.jstr "redis-cache"),
            cache_set worldOnlyCache ⟨[]⟩ ("rcl:" ++ isoDate ⟨2026, 1, 25⟩)
              thirdEpiphanyResult (86400 * 7)) ∧
      objLookup (objSet thirdEpiphanyResult "source" (.jstr "redis-cache")) "readings"
        = objLookup thirdEpiphanyResult "readings") :=
  ⟨rfl, rfl, rfl, rfl, rfl,
    claim_c8 worldOnlyCache ⟨[]⟩ ⟨2026, 1, 25⟩
      (some "The Third Sunday after the Epiphany") thirdEpiphanyResult
      rfl rfl rfl rfl rfl⟩

/-- C9 counterexample: with the external package unavailable,
`get_calendar_info` on 2026-01-11 (a Sunday, the first Sunday after the
Epiphany) sets `day_name` to the season label, not to the week-1 entry of
the Epiphany ordinal table that the positional mapping would give. -/
theorem claim_c9_counterexample :
    (get_calendar_info .unavailable ⟨2026, 1, 11⟩).day_name
      = "The Season after the Epiphany" ∧
    weekday ⟨2026, 1, 11⟩ = 6 ∧
    map_episcopal_name "Epiphany" 1 ""
      = "The First Sunday after the Epiphany: The Baptism of our Lord" ∧
    (get_calendar_info .unavailable ⟨2026, 1, 11⟩).day_name
      ≠ "The First Sunday after the Epiphany: The Baptism of our Lord" := by
  decide

/-- C9 (amended): when the external calendar authority is unavailable or
raises, `get_calendar_info` builds the whole result from the built-in
computation with `day_name` equal to the season label; the positional
week-of-season mapping (week 1 of Epiphany season giving the Baptism entry,
an index beyond the table giving a generated week label) applies only to the
authority's output, and any successful authority call - mapped or
unmapped season alike - is used as-is rather than triggering the fallback. -/
theorem claim_c9 (pkg : PkgOutcome) (d : Date) (wk : Nat) (cn : String)
    (hpkg : pkg = .unavailable ∨ pkg = .raised)
    (hw : 10 ≤ wk) (hcn1 : cn ≠ "Epiphany") (hcn2 : cn ≠ "The Epiphany") :
    get_calendar_info pkg d
      = { date := d, is_sunday := weekday d == 6,
          rcl_year := calculate_rcl_year d,
          lectionary_year := calculate_lectionary_year d,
          easter_date := computus d.year,
          day_name := fallback_season d, season := fallback_season d,
          colour := getStrD COLOUR_MAP (fallback_season d) "Green",
          raw_calendar := none } ∧
    map_episcopal_name "Epiphany" 1 cn
      = "The First Sunday after the Epiphany: The Baptism of our Lord" ∧
    map_episcopal_name "Epiphany" wk cn
      = "The Season after the Epiphany (Week " ++ toString wk ++ ")" ∧
    (∀ s w2 n, (get_calendar_info (.ok s w2 n) d).raw_calendar = some (s, w2, n)) := by
  have hmap : getStrD SEASON_MAP "Epiphany" "Epiphany" = "The Season after the Epiphany" := rfl
  refine ⟨?_, ?_, ?_, fun s w2 n => rfl⟩
  · rcases hpkg with h | h <;> subst h <;> rfl
  · have hcn : (cn = "Epiphany" ∨ cn = "The Epiphany") = False := by
      simp [hcn1, hcn2]
    simp [map_episcopal_name, hmap, hcn, getNatD, EPIPHANY_NAMES]
  · have hcn : (cn = "Epiphany" ∨ cn = "The Epiphany") = False := by
      simp [hcn1, hcn2]
    have hfind : EPIPHANY_NAMES.find? (fun p => p.1 == wk) = none := by
      rw [List.find?_eq_none]
      intro x hx
      fin_cases hx <;> simp <;> omega
    simp [map_episcopal_name, hmap, hcn, getNatD, hfind]

/-- Witness for C9 with the package absent, week index 12, name "x". -/
theorem claim_c9_witness :
    ((PkgOutcome.unavailable = PkgOutcome.unavailable ∨
        PkgOutcome.unavailable = PkgOutcome.raised) ∧ 10 ≤ 12 ∧
      ("x" ≠ "Epiphany") ∧ ("x" ≠ "The Epiphany")) ∧
    (get_calendar_info .unavailable ⟨2026, 1, 11⟩
        = { date := ⟨2026, 1, 11⟩, is_sunday := weekday ⟨2026, 1, 11⟩ == 6,
            rcl_year := calculate_rcl_year ⟨2026, 1, 11⟩,
            lectionary_year := calculate_lectionary_year ⟨2026, 1, 11⟩,
            easter_date := computus (2026 : Nat),
            day_name := fallback_season ⟨2026, 1, 11⟩,
            season := fallback_season ⟨2026, 1, 11⟩,
            colour := getStrD COLOUR_MAP (fallback_season ⟨2026, 1, 11⟩) "Green",
            raw_calendar := none } ∧
      map_episcopal_name "Epiphany" 1 "x"
        = "The First Sunday after the Epiphany: The Baptism of our Lord" ∧
      map_episcopal_name "Epiphany" 12 "x"
        = "The Season after the Epiphany (Week " ++ toString (12 : Nat) ++ ")" ∧
      (∀ s w2 n, (get_calendar_info (.ok s w2 n) ⟨2026, 1, 11⟩).raw_calendar
        = some (s, w2, n))) :=
  ⟨⟨Or.inl rfl, by omega, by decide, by decide⟩,
    claim_c9 .unavailable ⟨2026, 1, 11⟩ 12 "x" (Or.inl rfl) (by omega)
      (by decide) (by decide)⟩

/-- C10: the `day_name` argument is dead whenever the cache serves a truthy
payload or tier 2 or tier 3 yields a result - two calls differing only in
`day_name` (including omitting it) are indistinguishable, in returned value
and in cache effect alike. -/
theorem claim_c10 (w : World) (st : CacheState) (d : Date) (dn1 dn2 : Option String)
    (h : (∃ v, cache_get w st ("rcl:" ++ isoDate d) = some v ∧ jTruthy v = true)
      ∨ lookup_daily_office w d ≠ none ∨ lookup_lectserve w d ≠ none) :
    get_readings w st d dn1 = get_readings w st d dn2 := by
  simp only [get_readings, resolve_tiers, tier_chain]
  cases hc : cache_get w st ("rcl:" ++ isoDate d) with
  | some v =>
      cases ht : jTruthy v
      case false =>
        cases h2 : lookup_daily_office w d with
        | some val => simp [ht]
        | none =>
            cases h3 : lookup_lectserve w d with
            | some val => simp [ht]
            | none =>
                rcases h with ⟨v2, hv2, ht2⟩ | h2x | h3x
                · rw [hc] at hv2
                  injection hv2 with hv2e
                  rw [hv2e] at ht
                  rw [ht] at ht2
                  exact Bool.noConfusion ht2
                · exact absurd h2 h2x
                · exact absurd h3 h3x
      case true => simp [ht]
  | none =>
      cases h2 : lookup_daily_office w d with
      | some val => simp
      | none =>
          cases h3 : lookup_lectserve w d with
          | some val => simp
          | none =>
              rcases h with ⟨v2, hv2, ht2⟩ | h2x | h3x
              · rw [hc] at hv2
                exact Option.noConfusion hv2
              · exact absurd h2 h2x
              · exact absurd h3 h3x

/-- Witness for C10: a cache hit makes "Easter Day" and no day name at all
return the same thing. -/
theorem claim_c10_witness :
    (cache_get ⟨true, false, false, false, fun _ => FileR.absent, HttpR.err⟩
        ⟨[("rcl:2026-01-25", 604800, JVal.jobj [("source", JVal.jstr "x")])]⟩
        ("rcl:" ++ isoDate ⟨2026, 1, 25⟩)
      = some (JVal.jobj [("source", JVal.jstr "x")]) ∧
      jTruthy (JVal.jobj [("source", JVal.jstr "x")]) = true) ∧
    get_readings ⟨true, false, false, false, fun _ => FileR.absent, HttpR.err⟩
        ⟨[("rcl:2026-01-25", 604800, JVal.jobj [("source", JVal.jstr "x")])]⟩
        ⟨2026, 1, 25⟩ (some "Easter Day")
      = get_readings ⟨true, false, false, false, fun _ => FileR.absent, HttpR.err⟩
          ⟨[("rcl:2026-01-25", 604800, JVal.jobj [("source", JVal.jstr "x")])]⟩
          ⟨2026, 1, 25⟩ none :=
  ⟨⟨rfl, rfl⟩,
    claim_c10 ⟨true, false, false, false, fun _ => FileR.absent, HttpR.err⟩
      ⟨[("rcl:2026-01-25", 604800, JVal.jobj [("source", JVal.jstr "x")])]⟩
      ⟨2026, 1, 25⟩ (some "Easter Day") none
      (Or.inl ⟨JVal.jobj [("source", JVal.jstr "x")], rfl, rfl⟩)⟩
